import Mathlib

/-!
Verification of the Discord client library core (Eris-style `Client` class).

Shallow embedding of `src/unnamed/part_000` (the `Client` class) and the entity
update logic of `src/mafiaBot-master/updates/RMBv1.js` (`GroupChannel.update`,
`Member.update`).  Parts of the repository that are referenced but not present
under `src/` (`gateway/Shard.js`, `util/Collection.js`,
`voice/VoiceConnectionManager.js`, `Constants.js`) are modelled from the
specification where a claim depends on them; each such definition carries a
doc comment starting with `Modelled from the spec:`.
-/

namespace DiscordClient

/-! ## Connect sequencing: `Client.queueConnect` / `Client.tryConnect`

State of one shard as observed by the client: its ID and its `connecting`
flag.  Timestamps are `Int` milliseconds (`Date.now()`). -/

structure ShardSt where
  sid : Nat
  connecting : Bool
deriving DecidableEq

/-- The part of the `Client` state read and written by `queueConnect` /
`tryConnect`: the shard collection, the pending `connectQueue` (shard IDs in
push order), `lastReadyPacket`, the scheduled `connectTimeout` (absolute fire
time, `none` when no timer is pending) and the current clock `Date.now()`. -/
structure ClientSt where
  shards : List ShardSt
  connectQueue : List Nat
  lastReadyPacket : Int
  connectTimeout : Option Int
  now : Int
deriving DecidableEq

/-- `!this.shards.find((shard) => shard.connecting)` is false, i.e. some shard
has its connecting flag set. -/
def anyConnecting (shards : List ShardSt) : Bool :=
  shards.any (·.connecting)

/-- Modelled from the spec: `gateway/Shard.js` is not under `src/`.  Per §4.2
`connect()` moves the shard into the `Connecting` phase; we model that effect
as setting the shard's `connecting` flag in the client's collection. -/
def setConnecting (shards : List ShardSt) (sid : Nat) (b : Bool) : List ShardSt :=
  shards.map (fun sh => if sh.sid = sid then { sh with connecting := b } else sh)

/-- The `setTimeout` delay computed by `tryConnect`:
`Math.min(Math.max(250, Date.now() - 5250 - this.lastReadyPacket), 5250)`. -/
def tryConnectDelay (now lastReadyPacket : Int) : Int :=
  min (max 250 (now - 5250 - lastReadyPacket)) 5250

/-- `Client.tryConnect` (part_000 lines 253-266), state effect of the guarded
`setTimeout` registration: if no timer is pending, schedule one at
`now + delay`.  The timer body is `timerCallback` below. -/
def tryConnect (st : ClientSt) : ClientSt :=
  match st.connectTimeout with
  | some _ => st
  | none => { st with connectTimeout := some (st.now + tryConnectDelay st.now st.lastReadyPacket) }

/-- `Client.queueConnect` (part_000 lines 244-251).  Returns the new state and
the list of admissions made (admission time, shard ID): the shard is connected
immediately when `lastReadyPacket <= now - 5250` and no shard is connecting,
otherwise it is appended to `connectQueue` and `tryConnect` is invoked. -/
def queueConnect (st : ClientSt) (sid : Nat) : ClientSt × List (Int × Nat) :=
  if st.lastReadyPacket ≤ st.now - 5250 ∧ anyConnecting st.shards = false then
    ({ st with shards := setConnecting st.shards sid true }, [(st.now, sid)])
  else
    (tryConnect { st with connectQueue := st.connectQueue ++ [sid] }, [])

/-- The guarded admission inside the `setTimeout` callback of `tryConnect`
(part_000 lines 256-259): if the queue is non-empty, the spacing has elapsed
and no shard is connecting, shift the queue head, connect it, and add 5250 to
`lastReadyPacket`. -/
def timerAdmit (st : ClientSt) : ClientSt × List (Int × Nat) :=
  if st.connectQueue ≠ [] ∧ st.lastReadyPacket ≤ st.now - 5250 ∧
      anyConnecting st.shards = false then
    match st.connectQueue with
    | [] => (st, [])
    | sid :: rest =>
      ({ st with
          shards := setConnecting st.shards sid true
          connectQueue := rest
          lastReadyPacket := st.lastReadyPacket + 5250 }, [(st.now, sid)])
  else (st, [])

/-- The body of the `setTimeout` callback registered by `tryConnect`
(part_000 lines 255-263): the guarded admission, then `connectTimeout = null`,
then rescheduling via `tryConnect` if the queue is still non-empty. -/
def timerCallback (st : ClientSt) : ClientSt × List (Int × Nat) :=
  let r := timerAdmit st
  let st2 : ClientSt := { r.1 with connectTimeout := none }
  (if st2.connectQueue = [] then st2 else tryConnect st2, r.2)

/-- Events of the connect sequencer.  `queueConnect` and `timerFire` execute
source code; `shardStop` is modelled from the spec (§4.2: a shard leaves the
`Connecting` phase when it becomes `Connected` or `Disconnected`); `tick`
advances the wall clock. -/
inductive Ev where
  | queueConnect (sid : Nat)
  | timerFire
  | shardStop (sid : Nat)
  | tick (d : Nat)
deriving DecidableEq

/-- One step of the sequencer: dispatch an event against the state, returning
the successor state and the admissions (time, shard ID) made during the step.
A `timerFire` only has an effect when a timer is pending and its fire time has
been reached. -/
def step (st : ClientSt) (e : Ev) : ClientSt × List (Int × Nat) :=
  match e with
  | .queueConnect sid => queueConnect st sid
  | .timerFire =>
    match st.connectTimeout with
    | some t => if t ≤ st.now then timerCallback st else (st, [])
    | none => (st, [])
  | .shardStop sid => ({ st with shards := setConnecting st.shards sid false }, [])
  | .tick d => ({ st with now := st.now + d }, [])

/-- Run a list of events, concatenating the admission logs in order. -/
def runEvs (st : ClientSt) : List Ev → ClientSt × List (Int × Nat)
  | [] => (st, [])
  | e :: es =>
    let r := step st e
    let r2 := runEvs r.1 es
    (r2.1, r.2 ++ r2.2)

/-- Number of shards currently in the `Connecting` phase. -/
def countConnecting (st : ClientSt) : Nat :=
  (st.shards.filter (·.connecting)).length

/-! ## Bulk message deletion: `Client.deleteMessages` (part_000 lines 914-933)

The REST layer (`rest/RequestHandler.js`, not under `src/`) is abstracted by
two oracles: `failAt k` gives the error with which the `k`-th issued request
rejects (`none` = it resolves), and `respDelay k` its response latency in
milliseconds.  IDs are polymorphic (`α`) — the code never inspects them. -/

/-- Kind of request a `deleteMessages` call issues for a batch: a single
`DELETE` via `deleteMessage` (exactly one ID left) or a `POST` bulk delete. -/
inductive ReqKind where
  | single
  | bulk
deriving DecidableEq

/-- A request actually issued, with its send time and the IDs it carries. -/
structure SentBatch (α : Type) where
  kind : ReqKind
  time : Int
  ids : List α
deriving DecidableEq

/-- `Client.deleteMessages`: 0 IDs resolve immediately; 1 ID goes through
`deleteMessage`; more than 100 IDs splice off the first 100 into a bulk
request and, on success, re-invoke `deleteMessages` on the rest after a
1000 ms `setTimeout` — note that the promise returned to the caller is the
first request's `.then(...)`, so it settles with the first batch and the
recursive call's outcome is dropped; otherwise one bulk request is issued.
Returns the batches issued (in order) and the settlement of the promise the
original caller received. -/
def deleteMessagesGo (failAt : Nat → Option String) (respDelay : Nat → Int) :
    Nat → Int → List α → List (SentBatch α) × Except String Unit
  | _, _, [] => ([], .ok ())
  | k, t, [m] =>
    ([⟨.single, t, [m]⟩],
      match failAt k with
      | some e => .error e
      | none => .ok ())
  | k, t, ids =>
    if _h : ids.length > 100 then
      match failAt k with
      | some e => ([⟨.bulk, t, ids.take 100⟩], .error e)
      | none =>
        let rest := deleteMessagesGo failAt respDelay (k + 1)
          (t + respDelay k + 1000) (ids.drop 100)
        (⟨.bulk, t, ids.take 100⟩ :: rest.1, .ok ())
    else
      ([⟨.bulk, t, ids⟩],
        match failAt k with
        | some e => .error e
        | none => .ok ())
termination_by _ _ ids => ids.length
decreasing_by simp_wf; omega

/-- Entry point: batches are numbered from 1 and the first request is sent at
time `t0`. -/
def deleteMessages (failAt : Nat → Option String) (respDelay : Nat → Int)
    (t0 : Int) (messageIDs : List α) : List (SentBatch α) × Except String Unit :=
  deleteMessagesGo failAt respDelay 1 t0 messageIDs

/-- Consecutive elements of the list are at least `gap` apart. -/
def spacedBy (gap : Int) : List Int → Prop
  | [] => True
  | [_] => True
  | a :: b :: rest => a + gap ≤ b ∧ spacedBy gap (b :: rest)

/-! ## Entity cache: `Collection.add` with the entity `update` methods

`GroupChannel.update` and `Member.update` are embedded from
`src/mafiaBot-master/updates/RMBv1.js`.  A JavaScript field that may be
`undefined` is an `Option`; `none` is `undefined`. -/

/-- Update payload for `GroupChannel.update`: the fields it reads, each
possibly `undefined`. -/
structure GCData where
  name : Option String := none
  owner_id : Option String := none
  icon : Option String := none
deriving DecidableEq

/-- The `GroupChannel` fields written by `GroupChannel.update`, plus the
identifying `id`. -/
structure GroupChannel where
  id : String
  name : Option String := none
  ownerID : Option String := none
  icon : Option String := none
deriving DecidableEq

/-- `GroupChannel.update` (RMBv1.js lines 390-394): each field is overwritten
when the payload defines it (`data.x !== undefined`) and retained otherwise. -/
def GroupChannel.update (c : GroupChannel) (d : GCData) : GroupChannel :=
  { c with
    name := match d.name with | some v => some v | none => c.name
    ownerID := match d.owner_id with | some v => some v | none => c.ownerID
    icon := match d.icon with | some v => some v | none => c.icon }

/-- The `GroupChannel` constructor's initialization of the update-managed
fields: they start `undefined` and `this.update(data)` is called. -/
def GroupChannel.create (id : String) (d : GCData) : GroupChannel :=
  GroupChannel.update { id := id } d

/-- Update payload for `Member.update`.  `joined_at` is the raw timestamp
string fed to `Date.parse`; `game` is abstracted to its name (the value is
stored through unchanged, `null` being `none` inside the inner `Option`). -/
structure MemberData where
  status : Option String := none
  game : Option (Option String) := none
  joined_at : Option String := none
  mute : Option Bool := none
  nick : Option String := none
  roles : Option (List String) := none
deriving DecidableEq

/-- The `Member` fields written by `Member.update`.  `voiceMute` stands for
the member's `VoiceState` (`structures/VoiceState.js` is not under `src/`;
its `update` is abstracted to recording the payload's `mute` flag). -/
structure Member where
  id : String
  status : Option String := none
  game : Option String := none
  joinedAt : Option Int := none
  voiceMute : Option Bool := none
  nick : Option String := none
  roles : Option (List String) := none
deriving DecidableEq

/-- `Member.update` (RMBv1.js lines 467-480).  `dateParse` abstracts the
JavaScript runtime's `Date.parse`.  `status` falls back to `"offline"` when
both the payload field and the stored value are falsy (`undefined` or `""`);
`game` falls back to `this.game || null` (an object is always truthy, so
`none` — null/undefined — maps to `none`); `nick` falls back to
`this.nick || null`, so a stored empty-string nickname (falsy) becomes `null`
when the payload leaves `nick` undefined; `joinedAt` and `roles` are written
only when the payload defines them; the voice state is updated only when
`data.mute` is defined. -/
def Member.update (dateParse : String → Int) (m : Member) (d : MemberData) : Member :=
  { m with
    status :=
      match d.status with
      | some s => some s
      | none =>
        match m.status with
        | some s => if s = "" then some "offline" else some s
        | none => some "offline"
    game :=
      match d.game with
      | some g => g
      | none => m.game
    joinedAt :=
      match d.joined_at with
      | some s => some (dateParse s)
      | none => m.joinedAt
    voiceMute :=
      match d.mute with
      | some b => some b
      | none => m.voiceMute
    nick :=
      match d.nick with
      | some v => some v
      | none =>
        match m.nick with
        | some s => if s = "" then none else some s
        | none => none
    roles :=
      match d.roles with
      | some rs => some rs
      | none => m.roles }

/-- Modelled from the spec: `util/Collection.js` is not under `src/`.  §4.4:
"`add(entity) → stored entity` (inserts if absent, else merges fields into the
existing stored instance and returns it — callers must not assume a fresh
instance)"; merging is the entity's own `update`.  The cache is the list of
stored `GroupChannel`s; the result pairs the new cache with the stored
instance returned to the caller. -/
def cacheAdd : List GroupChannel → String → GCData → List GroupChannel × GroupChannel
  | [], id, d =>
    let fresh := GroupChannel.create id d
    ([fresh], fresh)
  | c :: rest, id, d =>
    if c.id = id then (c.update d :: rest, c.update d)
    else
      let r := cacheAdd rest id d
      (c :: r.1, r.2)

/-- A member whose stored server nickname is the empty string (a falsy
JavaScript value). -/
def emptyNickMember : Member :=
  { id := "m1", nick := some "" }

/-- An update payload that defines none of the fields `Member.update`
reads. -/
def emptyMemberData : MemberData := {}

/-! ## Gateway URL resolution: `Client.getGateway` (part_000 lines 224-242) -/

/-- The JSON body of the bootstrap REST call: `data.url`, possibly absent. -/
structure GatewayResp where
  url : Option String
deriving DecidableEq

/-- URL normalization performed by `getGateway` on a fresh resolution: strip
everything from the first `"?"` (`data.url.substring(0, data.url.indexOf("?"))`
when `data.url.includes("?")`), ensure a trailing `"/"`, then append the
encoding/version query string. -/
def normalizeGatewayURL (u : String) (gatewayVersion : Nat) : String :=
  let u1 := if u.contains '?' then ((u.splitOn "?").headD "") else u
  let u2 := if u1.endsWith "/" then u1 else u1 ++ "/"
  u2 ++ "?encoding=json&v=" ++ toString gatewayVersion

/-- `Client.getGateway`: with a cached `gatewayURL` it resolves immediately;
otherwise it issues the bootstrap REST request (`requested = true`), caches
the normalized URL on a body carrying `url`, and rejects otherwise.  `resp` is
the response the REST layer would deliver.  Returns
(new cached `gatewayURL`, promise settlement, whether a request was issued). -/
def getGateway (gatewayURL : Option String) (resp : GatewayResp)
    (gatewayVersion : Nat) : Option String × Except String String × Bool :=
  match gatewayURL with
  | some u => (some u, .ok u, false)
  | none =>
    match resp.url with
    | some raw =>
      let g := normalizeGatewayURL raw gatewayVersion
      (some g, .ok g, true)
    | none => (none, .error "Invalid response from gateway REST call", true)

/-! ## Voice: `Client.joinVoiceChannel` (part_000 lines 287-317)

`voice/VoiceConnectionManager.js` and `Constants.js` are not under `src/`;
the manager is modelled from spec §4.5 and the permission constant from the
protocol constant it names. -/

/-- Modelled from the spec: `Constants.js` is not under `src/`.
`Constants.Permissions.voiceConnect` is the voice CONNECT permission bit of
the protocol, `1 << 20`. -/
def voiceConnectBit : Nat := 1048576

/-- JavaScript `!x` for a permissions number, coerced back to a number by the
bitwise `&`: `Number(!x)` is 1 when `x` is 0 and 0 otherwise. -/
def jsNotNum (n : Nat) : Nat :=
  if n = 0 then 1 else 0

/-- The permission guard of `joinVoiceChannel` exactly as written
(line 292): `!channel.permissionsOf(this.user.id).allow &
Constants.Permissions.voiceConnect` — logical negation binds before the
bitwise AND — tested for truthiness. -/
def insufficientPermGuard (allow : Nat) : Bool :=
  Nat.land (jsNotNum allow) voiceConnectBit ≠ 0

/-- The fields of a channel that `joinVoiceChannel` reads: its ID, whether
`channel.guild` is set, and `permissionsOf(this.user.id).allow`. -/
structure VChannel where
  id : String
  isGuild : Bool
  allow : Nat
deriving DecidableEq

/-- Phase of a voice connection state (spec §3 `VoiceConnectionState`). -/
inductive VoicePhase where
  | connecting
  | ready
deriving DecidableEq

/-- One voice connection state held by the manager: its target key, phase and
the identity of the connection object handed to callers. -/
structure VoiceConn where
  key : String
  phase : VoicePhase
  handle : Nat
deriving DecidableEq

/-- The voice connection manager's state: its keyed states, a counter minting
fresh connection identities, and the number of handshake attempts started. -/
structure VCMState where
  conns : List VoiceConn
  nextHandle : Nat
  handshakes : Nat
deriving DecidableEq

/-- Modelled from the spec: `voice/VoiceConnectionManager.js` is not under
`src/`.  §4.5: "`join`: if a state already exists for `targetKey` and is
`Ready`, return it immediately; if `Connecting`, return the same in-flight
handle rather than starting a second handshake".  Otherwise a new state is
created in `Connecting` and one handshake is started. -/
def VCM.join (st : VCMState) (key : String) : VCMState × Nat :=
  match st.conns.find? (fun c => c.key = key) with
  | some c => (st, c.handle)
  | none =>
    ({ conns := st.conns ++ [⟨key, .connecting, st.nextHandle⟩]
       nextHandle := st.nextHandle + 1
       handshakes := st.handshakes + 1 }, st.nextHandle)

/-- `Client.joinVoiceChannel`: reject when the channel is not found; reject
with the insufficient-permission error when the channel has a guild and the
(mis-parenthesized) permission guard is truthy; otherwise delegate to
`voiceConnections.join` and hand the connection back (the `waitForReady`
plumbing does not affect which connection is returned). -/
def joinVoiceChannel (channels : List VChannel) (vcm : VCMState)
    (channelID : String) : Except String (VCMState × Nat) :=
  match channels.find? (fun c => c.id = channelID) with
  | none => .error "Channel not found"
  | some ch =>
    if ch.isGuild ∧ insufficientPermGuard ch.allow then
      .error "Insufficient permission to connect to voice channel"
    else
      .ok (VCM.join vcm channelID)

/-! ## Message creation: `Client.createMessage` (part_000 lines 834-853) -/

/-- JavaScript values a caller can pass as `content`.  An object carries the
fields `createMessage` reads: its `content` property (`none` = the property
is absent) and its `disableEveryone` property. -/
inductive JSVal where
  | vStr (s : String)
  | vNum (n : Int)
  | vBool (b : Bool)
  | vNull
  | vUndef
  | vObj (content : Option JSVal) (disableEveryone : Option Bool)

/-- JavaScript string coercion (`"" + x` / `x.toString()`). -/
def jsToString : JSVal → String
  | .vStr s => s
  | .vNum n => toString n
  | .vBool b => cond b "true" "false"
  | .vNull => "null"
  | .vUndef => "undefined"
  | .vObj _ _ => "[object Object]"

/-- JavaScript falsiness of a value (as used by `content.content || ""`). -/
def jsFalsy : JSVal → Bool
  | .vStr s => s = ""
  | .vNum n => n = 0
  | .vBool b => !b
  | .vNull => true
  | .vUndef => true
  | .vObj _ _ => false

/-- The content-normalization chain at the top of `createMessage`, returning
the normalized `content.content` string and the `disableEveryone` property of
the resulting content object (`.error` is a thrown `TypeError`):
a string becomes `{content: string}`; a non-object, or an object whose
`content` property is `undefined`, becomes `{content: "" + content}` — except
`null`, whose `typeof` is `"object"`, so reading `null.content` throws; an
object with a defined non-string `content` gets
`content.content = (content.content || "").toString()`. -/
def normalizeContent : JSVal → Except String (String × Option Bool)
  | .vStr s => .ok (s, none)
  | .vNull => .error "TypeError: cannot read property of null"
  | .vNum n => .ok (jsToString (.vNum n), none)
  | .vBool b => .ok (jsToString (.vBool b), none)
  | .vUndef => .ok (jsToString .vUndef, none)
  | .vObj c de =>
    match c with
    | none => .ok (jsToString (.vObj none de), none)
    | some .vUndef => .ok (jsToString (.vObj (some .vUndef) de), none)
    | some (.vStr s) => .ok (s, de)
    | some v => .ok (if jsFalsy v then "" else jsToString v, de)

/-- The `@everyone`/`@here` filtering applied when `disableEveryone` is in
effect: each mention gets a zero-width space spliced in. -/
def filterEveryone (s : String) : String :=
  (s.replace "@everyone" "@​everyone").replace "@here" "@​here"

/-- Observable outcome of a `createMessage` call: a synchronously thrown
error, a rejected promise, or a REST request issued with the given content
string. -/
inductive CMResult where
  | thrown (e : String)
  | rejected (e : String)
  | requested (content : String)
deriving DecidableEq

/-- `Client.createMessage`: normalize `content`; reject with
"No content or file" when the normalized content string is falsy (empty) and
no `file` is given; otherwise apply the `disableEveryone` filter (the payload
field when defined, else `options.disableEveryone`) and issue the POST. -/
def createMessage (optionsDisableEveryone : Bool) (content : JSVal)
    (file : Option String) : CMResult :=
  match normalizeContent content with
  | .error e => .thrown e
  | .ok (s, de) =>
    if s = "" ∧ file = none then
      .rejected "No content or file"
    else
      let eff := match de with | some b => b | none => optionsDisableEveryone
      .requested (if eff then filterEveryone s else s)

/-- Whether a `createMessage` outcome issued a REST request. -/
def CMResult.isRequested : CMResult → Bool
  | .requested _ => true
  | _ => false

/-- Whether a `joinVoiceChannel` outcome is the insufficient-permission
rejection. -/
def isInsufficientPermRejection : Except String (VCMState × Nat) → Bool
  | .error e => e = "Insufficient permission to connect to voice channel"
  | .ok _ => false

/-! ## Concrete fixtures used by counterexample/failing-input theorems -/

/-- A client right after startup: two shards, empty queue, `lastReadyPacket`
still at its initial 0, clock at 10000 ms. -/
def twoShardInit : ClientSt :=
  { shards := [⟨0, false⟩, ⟨1, false⟩], connectQueue := [],
    lastReadyPacket := 0, connectTimeout := none, now := 10000 }

/-- Event trace: shard 0 requests connection (admitted via the bypass), shard
0 leaves the `Connecting` phase, 1 ms passes, shard 1 requests connection. -/
def rapidReconnectTrace : List Ev :=
  [.queueConnect 0, .shardStop 0, .tick 1, .queueConnect 1]

/-- A client right after startup with three shards. -/
def threeShardInit : ClientSt :=
  { shards := [⟨0, false⟩, ⟨1, false⟩, ⟨2, false⟩], connectQueue := [],
    lastReadyPacket := 0, connectTimeout := none, now := 10000 }

/-- Event trace: shard 0 requests connection (admitted), shard 1 requests
connection (queued behind the connecting shard 0), shard 0 leaves the
`Connecting` phase, shard 2 requests connection. -/
def queueJumpTrace : List Ev :=
  [.queueConnect 0, .queueConnect 1, .shardStop 0, .queueConnect 2]

/-! # Theorems -/

/-! ## Helper lemmas for the connect sequencer -/

theorem setConnecting_map_sid (l : List ShardSt) (sid : Nat) (b : Bool) :
    (setConnecting l sid b).map ShardSt.sid = l.map ShardSt.sid := by
  induction l with
  | nil => rfl
  | cons sh rest ih =>
    simp only [setConnecting, List.map_cons, List.map_map] at *
    by_cases h : sh.sid = sid <;> simp [h, ih, setConnecting]

theorem setConnecting_of_not_mem (l : List ShardSt) (sid : Nat) (b : Bool)
    (h : ∀ sh ∈ l, sh.sid ≠ sid) : setConnecting l sid b = l := by
  induction l with
  | nil => rfl
  | cons sh rest ih =>
    have h1 : sh.sid ≠ sid := h sh (by simp)
    have h2 : ∀ x ∈ rest, x.sid ≠ sid := fun x hx => h x (by simp [hx])
    simp [setConnecting, h1] at *
    exact ih h2

theorem filter_connecting_nil_of_none (l : List ShardSt)
    (h : anyConnecting l = false) : l.filter (·.connecting) = [] := by
  rw [List.filter_eq_nil_iff]
  intro sh hsh
  have := (List.any_eq_false.mp h) sh hsh
  simpa using this

theorem count_setConnecting_true_le_one (l : List ShardSt) (sid : Nat)
    (hany : anyConnecting l = false) (hnd : (l.map ShardSt.sid).Nodup) :
    ((setConnecting l sid true).filter (·.connecting)).length ≤ 1 := by
  induction l with
  | nil => simp [setConnecting]
  | cons sh rest ih =>
    simp only [anyConnecting, List.any_cons, Bool.or_eq_false_iff] at hany
    obtain ⟨hsh, hrest⟩ := hany
    simp only [List.map_cons, List.nodup_cons] at hnd
    obtain ⟨hnmem, hndrest⟩ := hnd
    by_cases h : sh.sid = sid
    · have hrest' : ∀ x ∈ rest, x.sid ≠ sid := by
        intro x hx hxe
        exact hnmem (by rw [h, ← hxe]; exact List.mem_map_of_mem ShardSt.sid hx)
      rw [show setConnecting (sh :: rest) sid true
            = { sh with connecting := true } :: setConnecting rest sid true by
          simp [setConnecting, h]]
      rw [setConnecting_of_not_mem rest sid true hrest']
      rw [show anyConnecting rest = false from hrest] at *
      simp [filter_connecting_nil_of_none rest hrest]
    · rw [show setConnecting (sh :: rest) sid true
            = sh :: setConnecting rest sid true by simp [setConnecting, h]]
      rw [List.filter_cons]
      simp only [hsh]
      exact le_trans (by simp [hsh]) (ih hrest hndrest)

theorem count_setConnecting_false_le (l : List ShardSt) (sid : Nat) :
    ((setConnecting l sid false).filter (·.connecting)).length
      ≤ (l.filter (·.connecting)).length := by
  induction l with
  | nil => simp [setConnecting]
  | cons sh rest ih =>
    by_cases h : sh.sid = sid
    · rw [show setConnecting (sh :: rest) sid false
            = { sh with connecting := false } :: setConnecting rest sid false by
          simp [setConnecting, h]]
      rw [List.filter_cons, List.filter_cons]
      by_cases hc : sh.connecting <;> simp [hc] <;> omega
    · rw [show setConnecting (sh :: rest) sid false
            = sh :: setConnecting rest sid false by simp [setConnecting, h]]
      rw [List.filter_cons, List.filter_cons]
      by_cases hc : sh.connecting <;> simp [hc] <;> omega

theorem tryConnect_shards (st : ClientSt) : (tryConnect st).shards = st.shards := by
  cases h : st.connectTimeout <;> simp [tryConnect, h]

theorem countConnecting_of_shards_eq {st st' : ClientSt}
    (h : st'.shards = st.shards) : countConnecting st' = countConnecting st := by
  simp [countConnecting, h]

theorem step_shards_map_sid (st : ClientSt) (e : Ev) :
    (step st e).1.shards.map ShardSt.sid = st.shards.map ShardSt.sid := by
  cases e with
  | queueConnect sid =>
    simp only [step, queueConnect]
    split
    · simp [setConnecting_map_sid]
    · rw [show (tryConnect { st with connectQueue := st.connectQueue ++ [sid] }).shards
            = st.shards from tryConnect_shards _]
  | timerFire =>
    simp only [step]
    cases h : st.connectTimeout with
    | none => rfl
    | some t =>
      simp only
      split
      · simp only [timerCallback]
        have hAdm : (timerAdmit st).1.shards.map ShardSt.sid
            = st.shards.map ShardSt.sid := by
          simp only [timerAdmit]
          split
          · cases hq : st.connectQueue <;> simp [setConnecting_map_sid]
          · rfl
        split <;> simp [tryConnect_shards, hAdm]
      · rfl
  | shardStop sid => simp [step, setConnecting_map_sid]
  | tick d => rfl

theorem step_count_le (st : ClientSt) (e : Ev)
    (hnd : (st.shards.map ShardSt.sid).Nodup) (h : countConnecting st ≤ 1) :
    countConnecting (step st e).1 ≤ 1 := by
  cases e with
  | queueConnect sid =>
    simp only [step, queueConnect]
    split
    · next hg =>
      simpa [countConnecting] using
        count_setConnecting_true_le_one st.shards sid hg.2 hnd
    · rw [countConnecting_of_shards_eq (tryConnect_shards _)]
      exact h
  | timerFire =>
    simp only [step]
    cases hct : st.connectTimeout with
    | none => exact h
    | some t =>
      simp only
      split
      · simp only [timerCallback]
        have hAdm : countConnecting { (timerAdmit st).1 with connectTimeout := none } ≤ 1 := by
          simp only [timerAdmit]
          split
          · next hg =>
            cases hq : st.connectQueue with
            | nil => exact h
            | cons sid rest =>
              simpa [countConnecting] using
                count_setConnecting_true_le_one st.shards sid hg.2.2 hnd
          · exact h
        split
        · exact hAdm
        · rw [countConnecting_of_shards_eq (tryConnect_shards _)]
          exact hAdm
      · exact h
  | shardStop sid =>
    calc countConnecting (step st (.shardStop sid)).1
        ≤ countConnecting st := by
          simpa [step, countConnecting] using
            count_setConnecting_false_le st.shards sid
      _ ≤ 1 := h
  | tick d => exact h

theorem step_admits_only_when_none_connecting (st : ClientSt) (e : Ev)
    (h : (step st e).2 ≠ []) : anyConnecting st.shards = false := by
  cases e with
  | queueConnect sid =>
    simp only [step, queueConnect] at h
    by_cases hg : st.lastReadyPacket ≤ st.now - 5250 ∧ anyConnecting st.shards = false
    · exact hg.2
    · simp [hg] at h
  | timerFire =>
    simp only [step] at h
    cases hct : st.connectTimeout with
    | none => simp [hct] at h
    | some t =>
      rw [hct] at h
      simp only at h
      by_cases hfire : t ≤ st.now
      · rw [if_pos hfire] at h
        simp only [timerCallback] at h
        by_cases hg : st.connectQueue ≠ [] ∧ st.lastReadyPacket ≤ st.now - 5250 ∧
            anyConnecting st.shards = false
        · exact hg.2.2
        · simp [timerAdmit, hg] at h
      · simp [if_neg hfire] at h
  | shardStop sid => simp [step] at h
  | tick d => simp [step] at h

theorem runEvs_count_le (evs : List Ev) (st : ClientSt)
    (hnd : (st.shards.map ShardSt.sid).Nodup) (h : countConnecting st ≤ 1) :
    countConnecting (runEvs st evs).1 ≤ 1 := by
  induction evs generalizing st with
  | nil => exact h
  | cons e es ih =>
    simp only [runEvs]
    exact ih (step st e).1 (by rw [step_shards_map_sid]; exact hnd)
      (step_count_le st e hnd h)

/-- C1: for every reachable state of a client with distinct shard IDs that
starts with at most one connecting shard, at most one shard is in the
`Connecting` phase at any instant; moreover `queueConnect` and the
`tryConnect` timer call a shard's `connect()` only when no shard in the
client's shard collection has its `connecting` flag set. -/
theorem claim1_at_most_one_connecting (st0 : ClientSt) (evs : List Ev)
    (hnd : (st0.shards.map ShardSt.sid).Nodup)
    (h0 : countConnecting st0 ≤ 1) :
    countConnecting (runEvs st0 evs).1 ≤ 1 ∧
    (∀ st e, (step st e).2 ≠ [] → anyConnecting st.shards = false) :=
  ⟨runEvs_count_le evs st0 hnd h0, step_admits_only_when_none_connecting⟩

/-- Witness for C1 at a concrete client and trace: two shards requesting
connection back to back leave at most one shard connecting. -/
theorem claim1_at_most_one_connecting_witness :
    (twoShardInit.shards.map ShardSt.sid).Nodup ∧
    countConnecting twoShardInit ≤ 1 ∧
    (countConnecting (runEvs twoShardInit [.queueConnect 0, .queueConnect 1]).1 ≤ 1 ∧
      (∀ st e, (step st e).2 ≠ [] → anyConnecting st.shards = false)) :=
  ⟨by decide, by decide,
    claim1_at_most_one_connecting twoShardInit [.queueConnect 0, .queueConnect 1]
      (by decide) (by decide)⟩

/-! ## Helper lemmas for `deleteMessages` -/

theorem deleteMessagesGo_nil (f : Nat → Option String) (rd : Nat → Int)
    (k : Nat) (t : Int) :
    deleteMessagesGo f rd k t ([] : List α) = ([], .ok ()) := by
  simp [deleteMessagesGo]

theorem deleteMessagesGo_one (f : Nat → Option String) (rd : Nat → Int)
    (k : Nat) (t : Int) (m : α) :
    deleteMessagesGo f rd k t [m] =
      ([⟨.single, t, [m]⟩],
        match f k with
        | some e => .error e
        | none => .ok ()) := by
  simp [deleteMessagesGo]

theorem deleteMessagesGo_big (f : Nat → Option String) (rd : Nat → Int)
    (k : Nat) (t : Int) (a b : α) (l : List α)
    (h : (a :: b :: l).length > 100) :
    deleteMessagesGo f rd k t (a :: b :: l) =
      match f k with
      | some e => ([⟨.bulk, t, (a :: b :: l).take 100⟩], .error e)
      | none =>
        (⟨.bulk, t, (a :: b :: l).take 100⟩ ::
          (deleteMessagesGo f rd (k + 1) (t + rd k + 1000) ((a :: b :: l).drop 100)).1,
          .ok ()) := by
  rw [deleteMessagesGo]
  · rw [dif_pos h]
  · simp
  · simp

theorem deleteMessagesGo_big_ok (f : Nat → Option String) (rd : Nat → Int)
    (k : Nat) (t : Int) (ids : List α)
    (h : ids.length > 100) (hf : f k = none) :
    deleteMessagesGo f rd k t ids =
      (⟨.bulk, t, ids.take 100⟩ ::
        (deleteMessagesGo f rd (k + 1) (t + rd k + 1000) (ids.drop 100)).1,
        .ok ()) := by
  match ids with
  | [] => simp at h
  | [m] => simp at h
  | a :: b :: l => rw [deleteMessagesGo_big f rd k t a b l h, hf]

theorem deleteMessagesGo_big_fail (f : Nat → Option String) (rd : Nat → Int)
    (k : Nat) (t : Int) (ids : List α) (e : String)
    (h : ids.length > 100) (hf : f k = some e) :
    deleteMessagesGo f rd k t ids = ([⟨.bulk, t, ids.take 100⟩], .error e) := by
  match ids with
  | [] => simp at h
  | [m] => simp at h
  | a :: b :: l => rw [deleteMessagesGo_big f rd k t a b l h, hf]

theorem deleteMessagesGo_small (f : Nat → Option String) (rd : Nat → Int)
    (k : Nat) (t : Int) (ids : List α)
    (h2 : 2 ≤ ids.length) (h100 : ids.length ≤ 100) :
    deleteMessagesGo f rd k t ids =
      ([⟨.bulk, t, ids⟩],
        match f k with
        | some e => .error e
        | none => .ok ()) := by
  match ids with
  | [] => simp at h2
  | [m] => simp at h2
  | a :: b :: l =>
    rw [deleteMessagesGo]
    · rw [dif_neg (by omega)]
    · simp
    · simp

/-- C7: `deleteMessages` with 250 identifiers and no failures issues exactly
3 sequential bulk-delete batches carrying the first 100, next 100 and last 50
IDs, every issued batch carries at most 100 IDs, and consecutive batch send
times are at least 1000 ms apart (each is sent 1000 ms after the previous
batch's response). -/
theorem claim7_deleteMessages_batches (f : Nat → Option String) (rd : Nat → Int)
    (t0 : Int) (ids : List α)
    (hlen : ids.length = 250) (hok : ∀ k, f k = none) (hrd : ∀ k, 0 ≤ rd k) :
    (deleteMessages f rd t0 ids).1.map SentBatch.ids
        = [ids.take 100, (ids.drop 100).take 100, ids.drop 200] ∧
    (deleteMessages f rd t0 ids).1.map SentBatch.kind = [.bulk, .bulk, .bulk] ∧
    ((deleteMessages f rd t0 ids).1.map fun b => b.ids.length) = [100, 100, 50] ∧
    (∀ b ∈ (deleteMessages f rd t0 ids).1, b.ids.length ≤ 100) ∧
    (deleteMessages f rd t0 ids).1.map SentBatch.time
        = [t0, t0 + rd 1 + 1000, t0 + rd 1 + 1000 + rd 2 + 1000] ∧
    spacedBy 1000 ((deleteMessages f rd t0 ids).1.map SentBatch.time) ∧
    (deleteMessages f rd t0 ids).2 = .ok () := by
  have hd1 : (ids.drop 100).length = 150 := by simp [hlen]
  have hd2 : ((ids.drop 100).drop 100).length = 50 := by simp [hlen]
  have e1 := deleteMessagesGo_big_ok f rd 1 t0 ids (by omega) (hok 1)
  have e2 := deleteMessagesGo_big_ok f rd 2 (t0 + rd 1 + 1000) (ids.drop 100)
    (by omega) (hok 2)
  have e3 := deleteMessagesGo_small f rd 3 (t0 + rd 1 + 1000 + rd 2 + 1000)
    ((ids.drop 100).drop 100) (by omega) (by omega)
  rw [deleteMessages, e1, e2, e3, hok 3]
  have hdd : (ids.drop 100).drop 100 = ids.drop 200 := by
    rw [List.drop_drop]
  have ht1 : (ids.take 100).length = 100 := by simp [hlen]
  have ht2 : ((ids.drop 100).take 100).length = 100 := by simp [hd1]
  refine ⟨by simp [hdd], by simp, ?_, ?_, by simp, ?_, rfl⟩
  · simp [ht1, ht2, hlen]
  · intro bb hbb
    simp only [List.mem_cons, List.not_mem_nil, or_false] at hbb
    rcases hbb with rfl | rfl | rfl
    · simp [ht1]
    · simp [ht2]
    · simp [hlen]
  · have g1 := hrd 1
    have g2 := hrd 2
    simp only [List.map_cons, List.map_nil, spacedBy]
    refine ⟨by omega, by omega, trivial⟩

/-- Witness for C7 at a concrete input: the identifiers 0..249. -/
theorem claim7_deleteMessages_batches_witness :
    ((List.range 250).length = 250 ∧ (∀ k : Nat, (fun _ : Nat => (none : Option String)) k = none) ∧
      (∀ k : Nat, (0 : Int) ≤ (fun _ : Nat => (0 : Int)) k)) ∧
    ((deleteMessages (fun _ => none) (fun _ => (0 : Int)) 0 (List.range 250)).1.map
        SentBatch.ids
      = [(List.range 250).take 100, ((List.range 250).drop 100).take 100,
          (List.range 250).drop 200] ∧
      (deleteMessages (fun _ => none) (fun _ => (0 : Int)) 0 (List.range 250)).1.map
        SentBatch.kind = [.bulk, .bulk, .bulk] ∧
      ((deleteMessages (fun _ => none) (fun _ => (0 : Int)) 0 (List.range 250)).1.map
        fun b => b.ids.length) = [100, 100, 50] ∧
      (∀ b ∈ (deleteMessages (fun _ => none) (fun _ => (0 : Int)) 0 (List.range 250)).1,
        b.ids.length ≤ 100) ∧
      (deleteMessages (fun _ => none) (fun _ => (0 : Int)) 0 (List.range 250)).1.map
        SentBatch.time = [0, 0 + 0 + 1000, 0 + 0 + 1000 + 0 + 1000] ∧
      spacedBy 1000 ((deleteMessages (fun _ => none) (fun _ => (0 : Int)) 0
        (List.range 250)).1.map SentBatch.time) ∧
      (deleteMessages (fun _ => none) (fun _ => (0 : Int)) 0 (List.range 250)).2
        = .ok ()) :=
  ⟨⟨by simp, fun _ => rfl, fun _ => le_refl 0⟩,
    claim7_deleteMessages_batches (fun _ => none) (fun _ => (0 : Int)) 0
      (List.range 250) (by simp) (fun _ => rfl) (fun _ => le_refl 0)⟩

theorem deleteMessages_250_batch2_fails (f : Nat → Option String)
    (rd : Nat → Int) (t0 : Int) (ids : List α) (e : String)
    (hlen : ids.length = 250) (h1 : f 1 = none) (h2 : f 2 = some e) :
    (deleteMessages f rd t0 ids).1.map SentBatch.ids
        = [ids.take 100, (ids.drop 100).take 100] ∧
    (deleteMessages f rd t0 ids).2 = Except.ok () := by
  have hd1 : (ids.drop 100).length = 150 := by simp [hlen]
  have e1 := deleteMessagesGo_big_ok f rd 1 t0 ids (by omega) h1
  have e2 := deleteMessagesGo_big_fail f rd 2 (t0 + rd 1 + 1000) (ids.drop 100)
    e (by omega) h2
  rw [deleteMessages, e1, e2]
  exact ⟨by simp, rfl⟩

/-- C2 (counterexample): for 250 identifiers with the second batch failing,
the promise handed to the caller has already resolved successfully after the
first batch — the batch-2 error and the count completed are not surfaced —
refuting the claim that the outcome reports 100 succeeded and carries the
batch-2 error.  (Only 2 batches are issued: batch 3 is indeed never sent.) -/
theorem claim2_counterexample :
    (deleteMessages (fun k => if k = 2 then some "batch 2 failed" else none)
        (fun _ => (0 : Int)) 0 (List.range 250)).2 = Except.ok () ∧
    ((deleteMessages (fun k => if k = 2 then some "batch 2 failed" else none)
        (fun _ => (0 : Int)) 0 (List.range 250)).1.map fun b => b.ids.length)
      = [100, 100] := by
  have h := deleteMessages_250_batch2_fails
    (fun k => if k = 2 then some "batch 2 failed" else none)
    (fun _ => (0 : Int)) 0 (List.range 250) "batch 2 failed" (by simp) rfl rfl
  refine ⟨h.2, ?_⟩
  have hm : ((deleteMessages (fun k => if k = 2 then some "batch 2 failed" else none)
      (fun _ => (0 : Int)) 0 (List.range 250)).1.map fun b => b.ids.length)
      = ((deleteMessages (fun k => if k = 2 then some "batch 2 failed" else none)
        (fun _ => (0 : Int)) 0 (List.range 250)).1.map SentBatch.ids).map
          List.length := by
    rw [List.map_map]
    rfl
  rw [hm, h.1]
  simp

/-- C2 (amended): if a batch after the first fails, the remaining batches are
not sent — for 250 identifiers with batch 2 failing only batches 1 and 2 are
issued — but the promise returned to the caller resolves successfully once
batch 1 succeeds, so neither the batch-2 error nor the count deleted so far
is surfaced to the caller; only a failure of the very first batch is
surfaced. -/
theorem claim2_amended_failure_not_surfaced (f : Nat → Option String)
    (rd : Nat → Int) (t0 : Int) (ids : List α) (e : String)
    (hlen : ids.length = 250) (h1 : f 1 = none) (h2 : f 2 = some e) :
    (deleteMessages f rd t0 ids).1.map SentBatch.ids
        = [ids.take 100, (ids.drop 100).take 100] ∧
    (deleteMessages f rd t0 ids).2 = Except.ok () ∧
    (∀ (g : Nat → Option String) (err : String), g 1 = some err →
      (deleteMessages g rd t0 ids).2 = Except.error err) := by
  have h := deleteMessages_250_batch2_fails f rd t0 ids e hlen h1 h2
  refine ⟨h.1, h.2, ?_⟩
  intro g err hg
  rw [deleteMessages, deleteMessagesGo_big_fail g rd 1 t0 ids err (by omega) hg]

/-- Witness for C2's amended theorem at a concrete input. -/
theorem claim2_amended_failure_not_surfaced_witness :
    ((List.range 250).length = 250 ∧
      (fun k => if k = 2 then some "batch 2 failed" else none) 1 = (none : Option String) ∧
      (fun k => if k = 2 then some "batch 2 failed" else none) 2 = some "batch 2 failed") ∧
    ((deleteMessages (fun k => if k = 2 then some "batch 2 failed" else none)
        (fun _ => (0 : Int)) 0 (List.range 250)).1.map SentBatch.ids
      = [(List.range 250).take 100, ((List.range 250).drop 100).take 100] ∧
      (deleteMessages (fun k => if k = 2 then some "batch 2 failed" else none)
        (fun _ => (0 : Int)) 0 (List.range 250)).2 = Except.ok () ∧
      (∀ (g : Nat → Option String) (err : String), g 1 = some err →
        (deleteMessages g (fun _ => (0 : Int)) 0 (List.range 250)).2
          = Except.error err)) :=
  ⟨⟨by simp, rfl, rfl⟩,
    claim2_amended_failure_not_surfaced
      (fun k => if k = 2 then some "batch 2 failed" else none)
      (fun _ => (0 : Int)) 0 (List.range 250) "batch 2 failed"
      (by simp) rfl rfl⟩

/-- C3 (failing input): on the startup trace where shard 0 is admitted via
the bypass at t = 10000, stops connecting, and shard 1 requests connection at
t = 10001, the code admits two consecutive connects 1 ms < 5250 ms apart, and
neither admission recorded its admission time (`lastReadyPacket` is still 0),
contradicting the claimed minimum identify spacing. -/
theorem claim3_rapid_admissions :
    (runEvs twoShardInit rapidReconnectTrace).2 = [(10000, 0), (10001, 1)] ∧
    (10001 : Int) - 10000 < 5250 ∧
    (runEvs twoShardInit rapidReconnectTrace).1.lastReadyPacket = 0 := by
  decide

/-- C4 (failing input): with shard 1 waiting in the pending list (it queued
while shard 0 was connecting), a later request by shard 2 takes the
immediate-connect bypass — which checks only the spacing and the
no-shard-connecting condition, not list emptiness — so shard 2 is connected
at t = 10000 while the earlier-requested shard 1 is still queued. -/
theorem claim4_queue_jump :
    (runEvs threeShardInit queueJumpTrace).2 = [(10000, 0), (10000, 2)] ∧
    (runEvs threeShardInit queueJumpTrace).1.connectQueue = [1] := by
  decide

/-! ## Helper lemmas for the entity cache -/

theorem GroupChannel.create_id (id : String) (d : GCData) :
    (GroupChannel.create id d).id = id := rfl

theorem cacheAdd_fresh (coll : List GroupChannel) (id : String) (d : GCData)
    (h : ∀ c ∈ coll, c.id ≠ id) :
    cacheAdd coll id d = (coll ++ [GroupChannel.create id d], GroupChannel.create id d) := by
  induction coll with
  | nil => rfl
  | cons c rest ih =>
    have h1 : c.id ≠ id := h c (by simp)
    have h2 : ∀ x ∈ rest, x.id ≠ id := fun x hx => h x (by simp [hx])
    simp [cacheAdd, h1, ih h2]

theorem cacheAdd_existing_last (coll : List GroupChannel) (e : GroupChannel)
    (id : String) (d : GCData) (h : ∀ c ∈ coll, c.id ≠ id) (he : e.id = id) :
    cacheAdd (coll ++ [e]) id d = (coll ++ [e.update d], e.update d) := by
  induction coll with
  | nil => simp [cacheAdd, he]
  | cons c rest ih =>
    have h1 : c.id ≠ id := h c (by simp)
    have h2 : ∀ x ∈ rest, x.id ≠ id := fun x hx => h x (by simp [hx])
    simp [cacheAdd, h1, ih h2]

theorem GroupChannel.update_id (c : GroupChannel) (d : GCData) :
    (c.update d).id = c.id := rfl

/-- C5 (counterexample): a field absent from the update does not always
retain its prior value.  `Member.update` evaluates `this.nick || null` on the
retention branch (RMBv1.js line 476), so a member whose stored nickname is
the empty string loses it — the stored value becomes `null`, not the prior
`""` — when an update payload leaves `nick` undefined. -/
theorem claim5_counterexample :
    (Member.update (fun _ => (0 : Int)) emptyNickMember emptyMemberData).nick
      = none ∧
    emptyNickMember.nick = some "" ∧
    emptyMemberData.nick = none := by
  refine ⟨?_, rfl, rfl⟩
  simp [Member.update, emptyNickMember, emptyMemberData]

/-- C5 (amended): adding the same ID twice to an entity cache leaves exactly
one stored entry for that ID (the cache grows by one over the two adds, not
two); the second `add` merges the update's defined fields into the existing
stored instance and returns that instance — a defined field overwrites and,
for `GroupChannel.update`, a field absent from the second payload retains its
prior value.  For `Member.update` a defined `nick` overwrites and an absent
`nick` retains a non-empty prior value, but JavaScript falsy fallbacks apply:
an absent `nick` over an empty-string prior value is stored as `null`. -/
theorem claim5_cache_add_merges (coll : List GroupChannel) (id : String)
    (d1 d2 : GCData) (hfresh : ∀ c ∈ coll, c.id ≠ id) :
    ((cacheAdd (cacheAdd coll id d1).1 id d2).1.filter
        (fun c => c.id = id)).length = 1 ∧
    (cacheAdd (cacheAdd coll id d1).1 id d2).1.length = coll.length + 1 ∧
    (cacheAdd (cacheAdd coll id d1).1 id d2).2
      = (GroupChannel.create id d1).update d2 ∧
    (d2.name = none →
      (cacheAdd (cacheAdd coll id d1).1 id d2).2.name = (cacheAdd coll id d1).2.name) ∧
    (∀ v, d2.name = some v →
      (cacheAdd (cacheAdd coll id d1).1 id d2).2.name = some v) ∧
    (∀ (dp : String → Int) (m : Member) (dm : MemberData) (v : String),
      dm.nick = some v → (Member.update dp m dm).nick = some v) ∧
    (∀ (dp : String → Int) (m : Member) (dm : MemberData) (s : String),
      dm.nick = none → m.nick = some s → s ≠ "" →
      (Member.update dp m dm).nick = some s) ∧
    (∀ (dp : String → Int) (m : Member) (dm : MemberData),
      dm.nick = none → m.nick = some "" →
      (Member.update dp m dm).nick = none) := by
  rw [cacheAdd_fresh coll id d1 hfresh]
  rw [cacheAdd_existing_last coll (GroupChannel.create id d1) id d2 hfresh
    (GroupChannel.create_id id d1)]
  refine ⟨?_, by simp, rfl, ?_, ?_, ?_, ?_, ?_⟩
  · rw [List.filter_append]
    have hc : coll.filter (fun c => c.id = id) = [] := by
      rw [List.filter_eq_nil_iff]
      intro c hcm
      simp [hfresh c hcm]
    rw [hc]
    simp [GroupChannel.update_id, GroupChannel.create_id]
  · intro h2
    simp [GroupChannel.update, h2]
  · intro v h2
    simp [GroupChannel.update, h2]
  · intro dp m dm v hnick
    simp [Member.update, hnick]
  · intro dp m dm s hnick hprior hne
    simp [Member.update, hnick, hprior, hne]
  · intro dp m dm hnick hprior
    simp [Member.update, hnick, hprior]

/-- Witness for C5: adding ID "7" twice to an empty cache; the second payload
redefines `name` but not `icon`. -/
theorem claim5_cache_add_merges_witness :
    (∀ c ∈ ([] : List GroupChannel), c.id ≠ "7") ∧
    (((cacheAdd (cacheAdd [] "7" ⟨some "a", none, some "i"⟩).1 "7"
        ⟨some "b", none, none⟩).1.filter (fun c => c.id = "7")).length = 1 ∧
      (cacheAdd (cacheAdd [] "7" ⟨some "a", none, some "i"⟩).1 "7"
        ⟨some "b", none, none⟩).1.length = ([] : List GroupChannel).length + 1 ∧
      (cacheAdd (cacheAdd [] "7" ⟨some "a", none, some "i"⟩).1 "7"
        ⟨some "b", none, none⟩).2
        = (GroupChannel.create "7" ⟨some "a", none, some "i"⟩).update
            ⟨some "b", none, none⟩ ∧
      ((⟨some "b", none, none⟩ : GCData).name = none →
        (cacheAdd (cacheAdd [] "7" ⟨some "a", none, some "i"⟩).1 "7"
          ⟨some "b", none, none⟩).2.name
          = (cacheAdd [] "7" ⟨some "a", none, some "i"⟩).2.name) ∧
      (∀ v, (⟨some "b", none, none⟩ : GCData).name = some v →
        (cacheAdd (cacheAdd [] "7" ⟨some "a", none, some "i"⟩).1 "7"
          ⟨some "b", none, none⟩).2.name = some v) ∧
      (∀ (dp : String → Int) (m : Member) (dm : MemberData) (v : String),
        dm.nick = some v → (Member.update dp m dm).nick = some v) ∧
      (∀ (dp : String → Int) (m : Member) (dm : MemberData) (s : String),
        dm.nick = none → m.nick = some s → s ≠ "" →
        (Member.update dp m dm).nick = some s) ∧
      (∀ (dp : String → Int) (m : Member) (dm : MemberData),
        dm.nick = none → m.nick = some "" →
        (Member.update dp m dm).nick = none)) :=
  ⟨by simp,
    claim5_cache_add_merges [] "7" ⟨some "a", none, some "i"⟩
      ⟨some "b", none, none⟩ (by simp)⟩

/-- C6: `getGateway` resolves the gateway URL at most once: whenever a call
resolves with URL `u`, the cache afterwards holds `u`, and every subsequent
call returns the same cached URL, resolves with it, and issues no further
REST request. -/
theorem claim6_getGateway_idempotent (st : Option String) (resp : GatewayResp)
    (v : Nat) (u : String) (h : (getGateway st resp v).2.1 = Except.ok u) :
    (getGateway st resp v).1 = some u ∧
    (∀ resp2, getGateway (some u) resp2 v = (some u, Except.ok u, false)) := by
  cases st with
  | some u0 =>
    have he : u0 = u := by simpa [getGateway] using h
    subst he
    exact ⟨rfl, fun _ => rfl⟩
  | none =>
    cases hr : resp.url with
    | some raw =>
      have he : normalizeGatewayURL raw v = u := by simpa [getGateway, hr] using h
      subst he
      exact ⟨by simp [getGateway, hr], fun _ => rfl⟩
    | none =>
      simp [getGateway, hr] at h

/-- Witness for C6: a client that already cached a gateway URL resolves with
it without issuing a request. -/
theorem claim6_getGateway_idempotent_witness :
    (getGateway (some "wss://gateway.discord.gg/?encoding=json&v=6") ⟨none⟩ 6).2.1
      = Except.ok "wss://gateway.discord.gg/?encoding=json&v=6" ∧
    ((getGateway (some "wss://gateway.discord.gg/?encoding=json&v=6") ⟨none⟩ 6).1
      = some "wss://gateway.discord.gg/?encoding=json&v=6" ∧
    (∀ resp2, getGateway (some "wss://gateway.discord.gg/?encoding=json&v=6") resp2 6
      = (some "wss://gateway.discord.gg/?encoding=json&v=6",
          Except.ok "wss://gateway.discord.gg/?encoding=json&v=6", false))) :=
  ⟨rfl, claim6_getGateway_idempotent
    (some "wss://gateway.discord.gg/?encoding=json&v=6") ⟨none⟩ 6
    "wss://gateway.discord.gg/?encoding=json&v=6" rfl⟩

/-! ## Helper lemmas for voice join -/

theorem insufficientPermGuard_false (allow : Nat) :
    insufficientPermGuard allow = false := by
  rw [insufficientPermGuard, jsNotNum]
  by_cases h : allow = 0
  · rw [if_pos h]
    decide
  · rw [if_neg h]
    decide

theorem VCM.find?_key_none {l : List VoiceConn} {key : String}
    (h : ∀ c ∈ l, c.key ≠ key) :
    l.find? (fun c => c.key = key) = none := by
  rw [List.find?_eq_none]
  intro c hc
  simp [h c hc]

theorem VCM.join_fresh (st : VCMState) (key : String)
    (h : ∀ c ∈ st.conns, c.key ≠ key) :
    VCM.join st key =
      ({ conns := st.conns ++ [⟨key, .connecting, st.nextHandle⟩]
         nextHandle := st.nextHandle + 1
         handshakes := st.handshakes + 1 }, st.nextHandle) := by
  rw [VCM.join, VCM.find?_key_none h]

theorem VCM.join_existing (st : VCMState) (key : String) (c : VoiceConn)
    (h : st.conns.find? (fun c2 => c2.key = key) = some c) :
    VCM.join st key = (st, c.handle) := by
  rw [VCM.join, h]

/-- C8: for a voice target key with no existing state, two `join` calls
issued before the first handshake resolves return the same in-flight
connection handle and start exactly one handshake (the second call leaves the
manager's state untouched); and whenever a state already exists for the key —
in particular a `Ready` one — `join` returns its handle immediately without
touching the state.  Both calls go through `joinVoiceChannel`, which
delegates to the manager when the channel exists. -/
theorem claim8_join_idempotent (channels : List VChannel) (vcm : VCMState)
    (key : String) (ch : VChannel)
    (hch : channels.find? (fun c => c.id = key) = some ch)
    (hfresh : ∀ c ∈ vcm.conns, c.key ≠ key) :
    joinVoiceChannel channels vcm key = .ok (VCM.join vcm key) ∧
    joinVoiceChannel channels (VCM.join vcm key).1 key
      = .ok (VCM.join (VCM.join vcm key).1 key) ∧
    (VCM.join (VCM.join vcm key).1 key).2 = (VCM.join vcm key).2 ∧
    (VCM.join (VCM.join vcm key).1 key).1 = (VCM.join vcm key).1 ∧
    (VCM.join vcm key).1.handshakes = vcm.handshakes + 1 ∧
    (∃ c, (VCM.join vcm key).1.conns.find? (fun c2 => c2.key = key) = some c ∧
      c.phase = .connecting ∧ c.handle = (VCM.join vcm key).2) ∧
    (∀ (st : VCMState) (c : VoiceConn),
      st.conns.find? (fun c2 => c2.key = key) = some c →
      VCM.join st key = (st, c.handle)) := by
  have hguard : ¬(ch.isGuild ∧ insufficientPermGuard ch.allow) := by
    simp [insufficientPermGuard_false]
  have hjvc : ∀ st : VCMState, joinVoiceChannel channels st key = .ok (VCM.join st key) := by
    intro st
    rw [joinVoiceChannel, hch]
    simp [hguard]
  have hj1 := VCM.join_fresh vcm key hfresh
  have hfind2 : (VCM.join vcm key).1.conns.find? (fun c2 => c2.key = key)
      = some ⟨key, .connecting, vcm.nextHandle⟩ := by
    rw [hj1]
    rw [List.find?_append, VCM.find?_key_none hfresh]
    simp
  refine ⟨hjvc vcm, hjvc _, ?_, ?_, ?_, ?_, ?_⟩
  · rw [VCM.join_existing _ key _ hfind2, hj1]
  · rw [VCM.join_existing _ key _ hfind2]
  · rw [hj1]
  · exact ⟨⟨key, .connecting, vcm.nextHandle⟩, hfind2, rfl, by rw [hj1]⟩
  · intro st c hc
    exact VCM.join_existing st key c hc

/-- Witness for C8: joining the voice channel "c1" twice on a manager with no
state for it. -/
theorem claim8_join_idempotent_witness :
    ([⟨"c1", true, 123⟩] : List VChannel).find? (fun c => c.id = "c1")
      = some ⟨"c1", true, 123⟩ ∧
    (∀ c ∈ (⟨[], 0, 0⟩ : VCMState).conns, c.key ≠ "c1") ∧
    (joinVoiceChannel [⟨"c1", true, 123⟩] ⟨[], 0, 0⟩ "c1"
      = .ok (VCM.join ⟨[], 0, 0⟩ "c1") ∧
    joinVoiceChannel [⟨"c1", true, 123⟩] (VCM.join ⟨[], 0, 0⟩ "c1").1 "c1"
      = .ok (VCM.join (VCM.join ⟨[], 0, 0⟩ "c1").1 "c1") ∧
    (VCM.join (VCM.join ⟨[], 0, 0⟩ "c1").1 "c1").2 = (VCM.join ⟨[], 0, 0⟩ "c1").2 ∧
    (VCM.join (VCM.join ⟨[], 0, 0⟩ "c1").1 "c1").1 = (VCM.join ⟨[], 0, 0⟩ "c1").1 ∧
    (VCM.join ⟨[], 0, 0⟩ "c1").1.handshakes = (⟨[], 0, 0⟩ : VCMState).handshakes + 1 ∧
    (∃ c, (VCM.join ⟨[], 0, 0⟩ "c1").1.conns.find? (fun c2 => c2.key = "c1") = some c ∧
      c.phase = .connecting ∧ c.handle = (VCM.join ⟨[], 0, 0⟩ "c1").2) ∧
    (∀ (st : VCMState) (c : VoiceConn),
      st.conns.find? (fun c2 => c2.key = "c1") = some c →
      VCM.join st "c1" = (st, c.handle))) :=
  ⟨rfl, by simp,
    claim8_join_idempotent [⟨"c1", true, 123⟩] ⟨[], 0, 0⟩ "c1"
      ⟨"c1", true, 123⟩ rfl (by simp)⟩

/-- C9: the insufficient-permission branch of `joinVoiceChannel` is
unreachable: because the logical negation binds before the bitwise AND and
the voice-connect bit is not bit 0, the guard is false for every permissions
value, so `joinVoiceChannel` never rejects with "Insufficient permission to
connect to voice channel". -/
theorem claim9_insufficient_perm_unreachable :
    (∀ allow : Nat, insufficientPermGuard allow = false) ∧
    (∀ (channels : List VChannel) (vcm : VCMState) (cid : String),
      isInsufficientPermRejection (joinVoiceChannel channels vcm cid) = false) := by
  refine ⟨insufficientPermGuard_false, ?_⟩
  intro channels vcm cid
  rw [joinVoiceChannel]
  cases h : channels.find? (fun c => c.id = cid) with
  | none => simp [isInsufficientPermRejection]
  | some ch => simp [insufficientPermGuard_false, isInsufficientPermRejection]

/-! ## `createMessage` -/

/-- C10: whenever the content normalization chain completes (the only input
it throws on is `null`), `createMessage` rejects with "No content or file"
exactly when the normalized content string is empty and no file argument is
supplied — and in that case no REST request is issued — and in every other
case a REST request is issued. -/
theorem claim10_createMessage_no_content (ode : Bool) (content : JSVal)
    (file : Option String) (s : String) (de : Option Bool)
    (hn : normalizeContent content = .ok (s, de)) :
    (createMessage ode content file = .rejected "No content or file"
      ↔ (s = "" ∧ file = none)) ∧
    ((createMessage ode content file).isRequested = true
      ↔ ¬(s = "" ∧ file = none)) := by
  rw [createMessage, hn]
  by_cases h : s = "" ∧ file = none
  · simp [h, CMResult.isRequested]
  · simp [h, CMResult.isRequested]

/-- Witness for C10 at a concrete input: the empty string without a file is
rejected; evaluating the same theorem at a non-empty string is covered by the
universally quantified statement. -/
theorem claim10_createMessage_no_content_witness :
    normalizeContent (.vStr "") = .ok ("", none) ∧
    ((createMessage true (.vStr "") none = .rejected "No content or file"
      ↔ (("" : String) = "" ∧ (none : Option String) = none)) ∧
    ((createMessage true (.vStr "") none).isRequested = true
      ↔ ¬(("" : String) = "" ∧ (none : Option String) = none))) :=
  ⟨rfl, claim10_createMessage_no_content true (.vStr "") none "" none rfl⟩

end DiscordClient
